import Mathlib

/-!
Verification development for the MetaMCP multi-transport client-connection
manager (`apps/backend/src/lib/metamcp/client.ts`).

The TypeScript source is shallowly embedded:

* `transformDockerUrl` becomes a pure function over the environment value of
  `TRANSFORM_LOCALHOST_TO_DOCKER_INTERNAL` (an `Option String`, `none` when the
  variable is unset) and the URL string.  The JavaScript call
  `url.replace(/localhost|127\.0\.0\.1/g, "host.docker.internal")` is embedded
  as `replaceTargets`: a left-to-right scan that at each position first tries
  the alternative `localhost`, then `127.0.0.1` (both of length 9), replaces a
  match with `host.docker.internal` and resumes after it, exactly as the global
  regex replacement does.

* `createMetaMcpClient` becomes a function from the embedded `ServerParameters`
  to `Except JsError FactoryResult`.  A thrown JavaScript exception is the
  `Except.error` case; the only throwing operation on these code paths is the
  WHATWG `new URL(...)` constructor, which is modelled as an explicit
  `parseUrl : String → Option ParsedUrl` parameter (`none` = the constructor
  throws a `TypeError`).  Constructed transports are recorded as first-order
  data (`Transport`), including the header maps the source installs.

* `connectMetaMcpClient` becomes a function of two oracles: `connectOk n`
  tells whether the handshake of attempt `n` succeeds, and `closeThrows n`
  tells whether the best-effort `client.close()` after failed attempt `n`
  throws.  The function returns the optional connection handle together with
  the ordered trace of observable events (connect attempts, intermediate
  client closes, sleeps).  The loop constants (`waitFor = 2500` ms,
  `retries = 3`) are taken verbatim from the source.
-/

namespace MetaMcp

/-- Characters of the regex alternative `localhost`. -/
def patLocalhost : List Char := ['l', 'o', 'c', 'a', 'l', 'h', 'o', 's', 't']

/-- Characters of the regex alternative `127.0.0.1`. -/
def patLoopback : List Char := ['1', '2', '7', '.', '0', '.', '0', '.', '1']

/-- Characters of the replacement string `host.docker.internal`. -/
def dockerHost : List Char :=
  ['h', 'o', 's', 't', '.', 'd', 'o', 'c', 'k', 'e', 'r', '.',
   'i', 'n', 't', 'e', 'r', 'n', 'a', 'l']

/-- Fuelled left-to-right global replacement of `localhost|127.0.0.1` by
`host.docker.internal`, as performed by `String.prototype.replace` with a
global regex.  Both alternatives have length 9, so after a match at `c :: rest`
the scan resumes at `rest.drop 8`.  The fuel is only a structural-recursion
device; `replaceTargets` supplies `s.length`, which is always enough. -/
def replaceTargetsF : Nat → List Char → List Char
  | _, [] => []
  | 0, s => s
  | fuel + 1, c :: rest =>
    if patLocalhost.isPrefixOf (c :: rest) then
      dockerHost ++ replaceTargetsF fuel (rest.drop 8)
    else if patLoopback.isPrefixOf (c :: rest) then
      dockerHost ++ replaceTargetsF fuel (rest.drop 8)
    else
      c :: replaceTargetsF fuel rest

/-- Embeds `url.replace(/localhost|127\.0\.0\.1/g, "host.docker.internal")`. -/
def replaceTargets (s : List Char) : List Char :=
  replaceTargetsF s.length s

/-- Function `transformDockerUrl` from `client.ts`: if the environment variable
`TRANSFORM_LOCALHOST_TO_DOCKER_INTERNAL` is exactly the string `"true"`, apply
the global replacement; otherwise return the URL unchanged.  The `console.log`
calls of the source are pure diagnostics and are not modelled. -/
def transformDockerUrl (envFlag : Option String) (url : String) : String :=
  if envFlag = some "true" then String.mk (replaceTargets url.data) else url

/-- The optional `oauth_tokens` credential of a server definition. -/
structure OAuthTokens where
  access_token : String

/-- Structure `ServerParameters` (modelled from the spec, §3: the defining module
`fetch-metamcp` is not part of the sources; only its shape is needed).
Optional string fields are `Option String`, so that the JavaScript truthiness
tests of the source (`!serverParams.type`, `serverParams.url && ...`) can be
embedded faithfully: a string field is falsy exactly when it is absent or
empty. -/
structure ServerParameters where
  type : Option String := none
  command : Option String := none
  args : Option (List String) := none
  env : Option (List (String × String)) := none
  url : Option String := none
  oauth_tokens : Option OAuthTokens := none
  name : Option String := none

/-- JavaScript truthiness of a `string | undefined` value: `undefined` and the
empty string are falsy, every other string is truthy. -/
def truthyStr : Option String → Bool
  | none => false
  | some s => !(s == "")

/-- Result of the (modelled) WHATWG `new URL(href)` constructor. -/
structure ParsedUrl where
  href : String

/-- The exceptions that can cross `createMetaMcpClient`'s boundary: the
`TypeError` thrown by `new URL` on an unparsable URL string. -/
inductive JsError
  | urlTypeError (input : String)

/-- The transport value constructed by the factory, recording exactly the
configuration the source passes to the SDK constructors:

* `StdioClientTransport({command, args, env, stderr})`,
* `SSEClientTransport(url)` or `SSEClientTransport(url, {requestInit:
  {headers}, eventSourceInit: {fetch: (u, init) => fetch(u, {...init,
  headers})}})` — the second field is the `requestInit` header map, the third
  the header map the custom `eventSourceInit.fetch` forces onto every
  event-stream (re)connect request,
* `StreamableHTTPClientTransport(url)` or with `{requestInit: {headers}}`. -/
inductive Transport
  | stdio (command : String) (args : Option (List String))
      (env : Option (List (String × String))) (stderr : String)
  | sse (url : ParsedUrl) (requestHeaders : Option (List (String × String)))
      (eventSourceFetchHeaders : Option (List (String × String)))
  | streamableHttp (url : ParsedUrl)
      (requestHeaders : Option (List (String × String)))

/-- The fixed identity the `Client` constructor is given. -/
structure ClientIdentity where
  name : String
  version : String

/-- The fixed capability announcement the `Client` constructor is given. -/
structure ClientCapabilities where
  prompts : Bool
  resourcesSubscribe : Bool
  tools : Bool

/-- The protocol client value, as configured at construction. -/
structure Client where
  identity : ClientIdentity
  capabilities : ClientCapabilities

/-- The one client the factory ever builds: name `metamcp-client`, version
`2.0.0`, capabilities `{prompts: {}, resources: {subscribe: true},
tools: {}}`. -/
def metamcpClient : Client :=
  { identity := { name := "metamcp-client", version := "2.0.0" },
    capabilities := { prompts := true, resourcesSubscribe := true, tools := true } }

/-- The pair `{client, transport}` returned by `createMetaMcpClient`. -/
structure FactoryResult where
  client : Option Client
  transport : Option Transport

/-- Bearer authorization header map built by the source for a present
credential. -/
def authHeader (tok : String) : List (String × String) :=
  [("Authorization", "Bearer " ++ tok)]

/-- Function `createMetaMcpClient` from `client.ts`.  `envFlag` is the value of
`TRANSFORM_LOCALHOST_TO_DOCKER_INTERNAL`; `parseUrl` models `new URL`
(`none` = the constructor throws, surfacing as `Except.error`).  Branches, in
source order: STDIO (default when `type` is falsy), SSE (requires truthy
`url`), STREAMABLE_HTTP (requires truthy `url`), otherwise the explicit
`{client: undefined, transport: undefined}` result. -/
def createMetaMcpClient (envFlag : Option String)
    (parseUrl : String → Option ParsedUrl) (serverParams : ServerParameters) :
    Except JsError FactoryResult :=
  if !truthyStr serverParams.type || serverParams.type == some "STDIO" then
    Except.ok
      { client := some metamcpClient,
        transport := some (Transport.stdio (serverParams.command.getD "")
          serverParams.args serverParams.env "ignore") }
  else if serverParams.type == some "SSE" && truthyStr serverParams.url then
    let transformedUrl := transformDockerUrl envFlag (serverParams.url.getD "")
    match parseUrl transformedUrl with
    | none => Except.error (JsError.urlTypeError transformedUrl)
    | some u =>
      match serverParams.oauth_tokens with
      | none =>
        Except.ok { client := some metamcpClient,
                    transport := some (Transport.sse u none none) }
      | some ot =>
        Except.ok { client := some metamcpClient,
                    transport := some (Transport.sse u
                      (some (authHeader ot.access_token))
                      (some (authHeader ot.access_token))) }
  else if serverParams.type == some "STREAMABLE_HTTP" && truthyStr serverParams.url then
    let transformedUrl := transformDockerUrl envFlag (serverParams.url.getD "")
    match parseUrl transformedUrl with
    | none => Except.error (JsError.urlTypeError transformedUrl)
    | some u =>
      match serverParams.oauth_tokens with
      | none =>
        Except.ok { client := some metamcpClient,
                    transport := some (Transport.streamableHttp u none) }
      | some ot =>
        Except.ok { client := some metamcpClient,
                    transport := some (Transport.streamableHttp u
                      (some (authHeader ot.access_token))) }
  else
    Except.ok { client := none, transport := none }

/-- Returns `true` exactly when the factory returned (rather than threw). -/
def isOkB : Except JsError FactoryResult → Bool
  | Except.ok _ => true
  | Except.error _ => false

/-- The claim-level description of a transport configured with a bearer
credential: the `requestInit` header map — and, for SSE, also the header map
forced by the custom `eventSourceInit.fetch` wrapper — is exactly
`Authorization: Bearer <token>`.  A stdio transport never carries one. -/
def transportBearsAuth (t : Transport) (tok : String) : Prop :=
  match t with
  | Transport.stdio _ _ _ _ => False
  | Transport.sse _ req ev => req = some (authHeader tok) ∧ ev = some (authHeader tok)
  | Transport.streamableHttp _ req => req = some (authHeader tok)

/-- A transport with no authorization configuration at all. -/
def transportNoAuth (t : Transport) : Prop :=
  match t with
  | Transport.stdio _ _ _ _ => True
  | Transport.sse _ req ev => req = none ∧ ev = none
  | Transport.streamableHttp _ req => req = none

/-- Close events of the underlying resources of an established connection. -/
inductive CloseEvt
  | transport
  | client

/-- Returns `true` for a transport-close event. -/
def isTransportCloseE : CloseEvt → Bool
  | CloseEvt.transport => true
  | CloseEvt.client => false

/-- Returns `true` for a client-close event. -/
def isClientCloseE : CloseEvt → Bool
  | CloseEvt.client => true
  | CloseEvt.transport => false

/-- One invocation of the `cleanup` closure returned on success:
`await transport.close(); await client.close();`.  The two booleans say
whether the respective underlying `close()` throws on this invocation; the
result is the ordered list of close calls that were issued and whether the
invocation itself threw.  If `transport.close()` throws, `client.close()` is
never reached and the error propagates to the caller of `cleanup`. -/
def handleCleanup : Bool → Bool → List CloseEvt × Bool
  | true, _ => ([CloseEvt.transport], true)
  | false, true => ([CloseEvt.transport, CloseEvt.client], true)
  | false, false => ([CloseEvt.transport, CloseEvt.client], false)

/-- The `ConnectedClient` value returned by `connectMetaMcpClient`: the live
client plus its `cleanup` closure (modelled by its observable behaviour). -/
structure ConnectedClient where
  cleanup : Bool → Bool → List CloseEvt × Bool

/-- Observable events of one establishment sequence. -/
inductive ConnEvent
  | attempt (n : Nat) (ok : Bool)
  | clientClose (threw : Bool)
  | transportClose
  | sleep (ms : Nat)

/-- Returns `true` for an intermediate client-close event of the retry loop. -/
def isClientCloseEvt : ConnEvent → Bool
  | ConnEvent.clientClose _ => true
  | _ => false

/-- Returns `true` for a transport-close event of the retry loop (the source never
emits one: the loop only ever calls `client.close()`). -/
def isTransportCloseEvt : ConnEvent → Bool
  | ConnEvent.transportClose => true
  | _ => false

/-- Returns `true` for a sleep event. -/
def isSleepEvt : ConnEvent → Bool
  | ConnEvent.sleep _ => true
  | _ => false

/-- Returns `true` for a connect attempt. -/
def isAttemptEvt : ConnEvent → Bool
  | ConnEvent.attempt _ _ => true
  | _ => false

/-- Forgets whether an intermediate client close threw; used to compare runs
that differ only in cleanup-close failures. -/
def eraseCloseFlag : ConnEvent → ConnEvent
  | ConnEvent.clientClose _ => ConnEvent.clientClose false
  | e => e

/-- Result of `connectMetaMcpClient`: the optional handle and the event
trace. -/
structure ConnectOutcome where
  handle : Option ConnectedClient
  events : List ConnEvent

/-- The retry loop of `connectMetaMcpClient`, one recursive step per loop
iteration.  `count` is the source's attempt counter; on failure the counter is
incremented and, when `count + 1 < 3` (the source's `retry = count < retries`
after `count++`), the client is best-effort closed — any error swallowed —
and the loop sleeps 2500 ms before retrying.  The fuel is only a
structural-recursion device; `connectMetaMcpClient` passes 3, which the guard
`count + 1 < 3` keeps from ever running out. -/
def connectGo (connectOk closeThrows : Nat → Bool) :
    Nat → Nat → List ConnEvent → ConnectOutcome
  | fuel + 1, count, acc =>
    if connectOk count then
      { handle := some { cleanup := handleCleanup },
        events := acc ++ [ConnEvent.attempt count true] }
    else if count + 1 < 3 then
      connectGo connectOk closeThrows fuel (count + 1)
        (acc ++ [ConnEvent.attempt count false,
                 ConnEvent.clientClose (closeThrows count),
                 ConnEvent.sleep 2500])
    else
      { handle := none, events := acc ++ [ConnEvent.attempt count false] }
  | 0, _, acc => { handle := none, events := acc }

/-- Function `connectMetaMcpClient` from `client.ts`, as a function of the handshake
oracle (`connectOk n` = attempt `n` succeeds) and the intermediate-close oracle
(`closeThrows n` = the best-effort `client.close()` after failed attempt `n`
throws). -/
def connectMetaMcpClient (connectOk closeThrows : Nat → Bool) : ConnectOutcome :=
  connectGo connectOk closeThrows 3 0 []

/-- The event block of one failed attempt followed by a retry: failed
handshake, best-effort client close, 2.5 second sleep. -/
def failCycle (closeThrows : Nat → Bool) (j : Nat) : List ConnEvent :=
  [ConnEvent.attempt j false, ConnEvent.clientClose (closeThrows j),
   ConnEvent.sleep 2500]

/-- Models the WHATWG `new URL` constructor to the precision the claims need:
a string containing no colon cannot carry a scheme, so the constructor throws
a `TypeError` on it; strings with a colon are treated as parseable here. -/
def parseUrlColon (s : String) : Option ParsedUrl :=
  if s.data.contains ':' then some { href := s } else none

/-- A `new URL` model that accepts every string; used to express behaviour
under the assumption that URL construction succeeds. -/
def parseUrlAny (s : String) : Option ParsedUrl :=
  some { href := s }

/-- Handshake oracle: every attempt fails. -/
def oracleNever : Nat → Bool := fun _ => false

/-- Handshake oracle: every attempt succeeds. -/
def oracleAlways : Nat → Bool := fun _ => true

/-- Handshake oracle: only the third attempt (index 2) succeeds. -/
def oracleThird : Nat → Bool := fun n => decide (n = 2)

/-- Close oracle: every intermediate `client.close()` throws. -/
def oracleCloseThrows : Nat → Bool := fun _ => true

/-- Fixture: a server definition with every optional field absent. -/
def stdioEmptyParams : ServerParameters := {}

/-- Fixture: explicit STDIO type, no command. -/
def stdioTypedParams : ServerParameters := { type := some "STDIO" }

/-- Fixture: SSE endpoint whose `url` the WHATWG URL constructor rejects
(no scheme, no colon — `new URL("not-a-url")` throws a `TypeError`). -/
def sseBadUrlParams : ServerParameters :=
  { type := some "SSE", url := some "not-a-url" }

/-- Fixture: SSE endpoint, parseable URL, no credential. -/
def sseNoTokenParams : ServerParameters :=
  { type := some "SSE", url := some "http://localhost:3000/mcp" }

/-- Fixture: SSE endpoint with bearer credential `tok123` (the spec's own
example scenario). -/
def sseTokenParams : ServerParameters :=
  { type := some "SSE", url := some "http://localhost:3000/mcp",
    oauth_tokens := some { access_token := "tok123" } }

/-!
Helper lemmas, shared by the claim theorems below.
-/

/-- Dropping the head of a suffix yields a suffix. -/
theorem suffix_tail {x : Char} {p l : List Char} (h : x :: p <:+ l) : p <:+ l := by
  obtain ⟨t, ht⟩ := h
  exact ⟨t ++ [x], by simpa using ht⟩

/-- A sublist sitting somewhere inside `a :: l₂` either starts at the head or
sits inside the tail. -/
theorem mid_cons_cases {l₁ l₂ : List Char} {a : Char} (h : l₁ <:+: a :: l₂) :
    l₁ <+: a :: l₂ ∨ l₁ <:+: l₂ :=
  List.infix_cons_iff.mp h

/-- Splitting a cons-to-cons IsPrefix fact. -/
theorem pre_cons_split {a b : Char} {l₁ l₂ : List Char} (h : a :: l₁ <+: b :: l₂) :
    a = b ∧ l₁ <+: l₂ :=
  List.cons_prefix_cons.mp h

/-- Assembling a cons-to-cons IsPrefix fact. -/
theorem pre_cons_mk {a b : Char} {l₁ l₂ : List Char} (h1 : a = b) (h2 : l₁ <+: l₂) :
    a :: l₁ <+: b :: l₂ :=
  List.cons_prefix_cons.mpr ⟨h1, h2⟩

/-- A pattern whose head does not occur in `T` and that occurs somewhere in
`T ++ X` must occur in `X`: no occurrence can start inside `T`. -/
theorem strip_append_left {x : Char} {p X : List Char} :
    ∀ T : List Char, x ∉ T → x :: p <:+: T ++ X → x :: p <:+: X := by
  intro T
  induction T with
  | nil => intro _ h; simpa using h
  | cons a T ih =>
    intro hx h
    rcases mid_cons_cases (by simpa using h) with hp | hm
    · obtain ⟨hxa, -⟩ := pre_cons_split hp
      exact absurd (by rw [hxa]; exact List.mem_cons_self a T) hx
    · exact ih (fun hm' => hx (List.mem_cons_of_mem a hm')) hm

/-- The replacement text `host.docker.internal` contains no character `1`, so
an occurrence of `127.0.0.1` after a replacement lies beyond it. -/
theorem loopback_after_docker {X : List Char} (h : patLoopback <:+: dockerHost ++ X) :
    patLoopback <:+: X := by
  have h' : ('1' :: ['2', '7', '.', '0', '.', '0', '.', '1']) <:+: dockerHost ++ X := h
  exact strip_append_left dockerHost (by decide) h'

/-- Persistence: a suffix of `127.0.0.1` that starts a replacement output also
starts the corresponding input.  Every character the replacement output can
begin with is either an untouched input character or the `h` of
`host.docker.internal`, which does not occur in `127.0.0.1`. -/
theorem replPersist :
    ∀ (fuel : Nat) (s p : List Char), s.length ≤ fuel → p <:+ patLoopback →
      p <+: replaceTargetsF fuel s → p <+: s := by
  intro fuel
  induction fuel with
  | zero =>
    intro s p hs hsuf hpre
    have hnil : s = [] := List.length_eq_zero.mp (Nat.le_zero.mp hs)
    subst hnil
    simpa [replaceTargetsF] using hpre
  | succ fuel ih =>
    intro s p hs hsuf hpre
    rcases s with _ | ⟨c, rest⟩
    · simpa [replaceTargetsF] using hpre
    · rcases p with _ | ⟨x, p'⟩
      · exact ⟨c :: rest, rfl⟩
      · simp only [replaceTargetsF] at hpre
        have hmem : x ∈ patLoopback := hsuf.subset (List.mem_cons_self x p')
        by_cases h1 : patLocalhost.isPrefixOf (c :: rest) = true
        · rw [if_pos h1] at hpre
          have hx : x = 'h' :=
            (pre_cons_split (show x :: p' <+:
              'h' :: (dockerHost.tail ++ replaceTargetsF fuel (rest.drop 8)) from hpre)).1
          rw [hx] at hmem
          exact absurd hmem (by decide)
        · by_cases h2 : patLoopback.isPrefixOf (c :: rest) = true
          · rw [if_neg h1, if_pos h2] at hpre
            have hx : x = 'h' :=
              (pre_cons_split (show x :: p' <+:
                'h' :: (dockerHost.tail ++ replaceTargetsF fuel (rest.drop 8)) from hpre)).1
            rw [hx] at hmem
            exact absurd hmem (by decide)
          · rw [if_neg h1, if_neg h2] at hpre
            obtain ⟨hxc, hp'⟩ := pre_cons_split hpre
            have hlen : rest.length ≤ fuel := by simp at hs; omega
            exact pre_cons_mk hxc (ih rest p' hlen (suffix_tail hsuf) hp')

/-- No occurrence of `127.0.0.1` survives or is created by the global
replacement: surviving occurrences would have been matched (they cannot
overlap a match to their left, because `127.0.0.1` then would start inside
`host.docker.internal`), and created occurrences would need a `1` inside the
replacement text. -/
theorem noLoopbackF :
    ∀ (fuel : Nat) (s : List Char), s.length ≤ fuel →
      ¬ patLoopback <:+: replaceTargetsF fuel s := by
  intro fuel
  induction fuel with
  | zero =>
    intro s hs h
    have hnil : s = [] := List.length_eq_zero.mp (Nat.le_zero.mp hs)
    subst hnil
    simp [replaceTargetsF] at h
    exact absurd h (by decide)
  | succ fuel ih =>
    intro s hs h
    rcases s with _ | ⟨c, rest⟩
    · simp [replaceTargetsF] at h
      exact absurd h (by decide)
    · simp only [replaceTargetsF] at h
      by_cases h1 : patLocalhost.isPrefixOf (c :: rest) = true
      · rw [if_pos h1] at h
        have hlen : (rest.drop 8).length ≤ fuel := by simp at hs ⊢; omega
        exact ih (rest.drop 8) hlen (loopback_after_docker h)
      · by_cases h2 : patLoopback.isPrefixOf (c :: rest) = true
        · rw [if_neg h1, if_pos h2] at h
          have hlen : (rest.drop 8).length ≤ fuel := by simp at hs ⊢; omega
          exact ih (rest.drop 8) hlen (loopback_after_docker h)
        · rw [if_neg h1, if_neg h2] at h
          rcases mid_cons_cases h with hp | hm
          · have hpre : patLoopback <+: replaceTargetsF (fuel + 1) (c :: rest) := by
              simp only [replaceTargetsF]
              rw [if_neg h1, if_neg h2]
              exact hp
            have hsrc : patLoopback <+: c :: rest :=
              replPersist (fuel + 1) (c :: rest) patLoopback hs (List.suffix_refl _) hpre
            simp at h2
            exact h2 hsrc
          · have hlen : rest.length ≤ fuel := by simp at hs; omega
            exact ih rest hlen hm

/-- The output of the global replacement never contains `127.0.0.1`. -/
theorem noLoopback_replaceTargets (s : List Char) :
    ¬ patLoopback <:+: replaceTargets s :=
  noLoopbackF s.length s (Nat.le_refl _)

/-- Every handle `connectMetaMcpClient` ever returns carries the one cleanup
closure the source builds: transport close followed by client close. -/
theorem connectGo_handle_shape (co ct : Nat → Bool) :
    ∀ (fuel count : Nat) (acc : List ConnEvent) (h : ConnectedClient),
      (connectGo co ct fuel count acc).handle = some h →
        h = { cleanup := handleCleanup } := by
  intro fuel
  induction fuel with
  | zero => intro count acc h hh; simp [connectGo] at hh
  | succ fuel ih =>
    intro count acc h hh
    simp only [connectGo] at hh
    by_cases h1 : co count = true
    · rw [if_pos h1] at hh
      simp at hh
      exact hh.symm
    · rw [if_neg h1] at hh
      by_cases h2 : count + 1 < 3
      · rw [if_pos h2] at hh
        exact ih _ _ h hh
      · rw [if_neg h2] at hh
        simp at hh

/-!
Claim theorems.
-/

/-- Claim C2, counterexample.  The claim says that with the rewrite flag on
the output contains no occurrence of `localhost` or `127.0.0.1` and that
path/query/scheme/port are unchanged.  Both parts fail on the code: for
`http://locallocalhost:3000/a` the replacement of the match at offset 12
glues the preceding `local` onto `host.docker.internal`, so the output
`http://localhost.docker.internal:3000/a` still contains `localhost`; and for
`http://h.example/localhost?q=127.0.0.1` the global regex also rewrites the
path and the query. -/
theorem claim2_counterexample :
    patLocalhost <:+: (transformDockerUrl (some "true") "http://locallocalhost:3000/a").data ∧
    transformDockerUrl (some "true") "http://h.example/localhost?q=127.0.0.1" =
      "http://h.example/host.docker.internal?q=host.docker.internal" := by
  constructor
  · decide
  · decide

/-- Claim C2, amended: when the flag is not exactly `"true"` the URL is
returned byte-identical; when it is `"true"`, every left-to-right occurrence
of `localhost` or `127.0.0.1` anywhere in the string (host, path and query
alike) is replaced by `host.docker.internal`, so the output never contains
`127.0.0.1` — but it can still contain `localhost`, and path/query are not
preserved in general. -/
theorem claim2_rewrite_scope (envFlag : Option String) (url : String)
    (hflag : envFlag ≠ some "true") :
    transformDockerUrl envFlag url = url ∧
    ¬ patLoopback <:+: (transformDockerUrl (some "true") url).data := by
  constructor
  · simp [transformDockerUrl, hflag]
  · have heq : transformDockerUrl (some "true") url = String.mk (replaceTargets url.data) :=
      if_pos rfl
    rw [heq]
    exact noLoopback_replaceTargets url.data

/-- Witness for the amended claim C2, at flag `none` and a loopback URL. -/
theorem claim2_witness :
    ((none : Option String) ≠ some "true") ∧
    (transformDockerUrl none "http://127.0.0.1:8080/x" = "http://127.0.0.1:8080/x" ∧
     ¬ patLoopback <:+: (transformDockerUrl (some "true") "http://127.0.0.1:8080/x").data) :=
  ⟨by decide, claim2_rewrite_scope none "http://127.0.0.1:8080/x" (by decide)⟩

/-- Claim C10: `transformDockerUrl` rewrites only when the environment flag is
exactly the string `true`; for every other value (`TRUE`, `1`, unset, …) and
every URL the input is returned unchanged. -/
theorem claim10_flag_literal_true (envFlag : Option String) (url : String)
    (hflag : envFlag ≠ some "true") :
    transformDockerUrl envFlag url = url := by
  simp [transformDockerUrl, hflag]

/-- Witness for claim C10 at the flag value `TRUE` (wrong case, no rewrite). -/
theorem claim10_witness :
    ((some "TRUE" : Option String) ≠ some "true") ∧
    transformDockerUrl (some "TRUE") "http://localhost:3000" = "http://localhost:3000" :=
  ⟨by decide, claim10_flag_literal_true (some "TRUE") "http://localhost:3000" (by decide)⟩

/-- Claim C3, counterexample.  The claim says the factory never raises past
its boundary, for any input including malformed `url` values.  But on the SSE
branch the source calls `new URL(transformedUrl)` with no try/catch, and the
WHATWG constructor throws a `TypeError` on `"not-a-url"` (no scheme): the
exception escapes `createMetaMcpClient` instead of becoming the explicit
no-transport result. -/
theorem claim3_counterexample :
    createMetaMcpClient none parseUrlColon sseBadUrlParams =
      Except.error (JsError.urlTypeError "not-a-url") := rfl

/-- Claim C3, amended: for every input whose (docker-transformed) `url` the
URL constructor accepts — and for every input on the STDIO and unsupported
branches, which never construct a URL — the factory returns normally, either
with a transport or with the explicit no-transport result; only a URL
constructor failure on the SSE/STREAMABLE_HTTP branches can escape as an
exception. -/
theorem claim3_no_throw_when_url_parses (envFlag : Option String)
    (parseUrl : String → Option ParsedUrl) (p : ServerParameters)
    (hp : (parseUrl (transformDockerUrl envFlag (p.url.getD ""))).isSome = true) :
    isOkB (createMetaMcpClient envFlag parseUrl p) = true := by
  rcases hu : parseUrl (transformDockerUrl envFlag (p.url.getD "")) with _ | u
  · rw [hu] at hp
    simp at hp
  · simp only [createMetaMcpClient]
    repeat' split
    all_goals (try rfl)
    all_goals simp_all

/-- Witness for the amended claim C3 at a parseable SSE configuration. -/
theorem claim3_witness :
    (parseUrlColon (transformDockerUrl none (sseNoTokenParams.url.getD ""))).isSome = true ∧
    isOkB (createMetaMcpClient none parseUrlColon sseNoTokenParams) = true :=
  ⟨rfl, claim3_no_throw_when_url_parses none parseUrlColon sseNoTokenParams rfl⟩

/-- Claim C4, counterexample.  The claim says that with resolved type STDIO
and `command` absent the factory fails fast and returns no transport.  The
source instead defaults the command with `serverParams.command || ""` and
happily constructs a subprocess transport whose command is the empty string:
at `{type: "STDIO"}` the returned transport is present, not absent. -/
theorem claim4_counterexample :
    createMetaMcpClient none parseUrlColon stdioTypedParams =
      Except.ok { client := some metamcpClient,
                  transport := some (Transport.stdio "" none none "ignore") } ∧
    (createMetaMcpClient none parseUrlColon stdioTypedParams).map FactoryResult.transport ≠
      Except.ok none := by
  constructor
  · rfl
  · rw [show (createMetaMcpClient none parseUrlColon stdioTypedParams).map FactoryResult.transport =
        Except.ok (some (Transport.stdio "" none none "ignore")) from rfl]
    simp

/-- Claim C4, amended: with resolved type STDIO (type unset or `"STDIO"`) and
`command` absent, the factory does not fail fast; it constructs a subprocess
transport whose command is defaulted to the empty string (the failure can only
surface later, when the subprocess is spawned). -/
theorem claim4_stdio_default_command (envFlag : Option String)
    (parseUrl : String → Option ParsedUrl) (p : ServerParameters)
    (htype : p.type = none ∨ p.type = some "STDIO") (hcmd : p.command = none) :
    createMetaMcpClient envFlag parseUrl p =
      Except.ok { client := some metamcpClient,
                  transport := some (Transport.stdio "" p.args p.env "ignore") } := by
  rcases htype with h | h <;> simp [createMetaMcpClient, h, truthyStr, hcmd]

/-- Witness for the amended claim C4 at `{type: "STDIO"}`. -/
theorem claim4_witness :
    (stdioTypedParams.type = none ∨ stdioTypedParams.type = some "STDIO") ∧
    stdioTypedParams.command = none ∧
    createMetaMcpClient none parseUrlAny stdioTypedParams =
      Except.ok { client := some metamcpClient,
                  transport := some (Transport.stdio "" stdioTypedParams.args
                    stdioTypedParams.env "ignore") } :=
  ⟨Or.inr rfl, rfl,
    claim4_stdio_default_command none parseUrlAny stdioTypedParams (Or.inr rfl) rfl⟩

/-- Claim C5: for SSE and STREAMABLE_HTTP parameters, every transport the
factory returns is configured so that, with a present credential, its
`requestInit` header map — and for SSE also the header map its
`eventSourceInit.fetch` wrapper forces onto every event-stream (re)connect
request — is exactly `Authorization: Bearer <access_token>`; with no
credential present, no header map is configured at all. -/
theorem claim5_bearer_header_configuration (envFlag : Option String)
    (parseUrl : String → Option ParsedUrl) (p : ServerParameters)
    (r : FactoryResult) (t : Transport)
    (htype : p.type = some "SSE" ∨ p.type = some "STREAMABLE_HTTP")
    (h : createMetaMcpClient envFlag parseUrl p = Except.ok r)
    (ht : r.transport = some t) :
    p.oauth_tokens.elim (transportNoAuth t)
      (fun ot => transportBearsAuth t ot.access_token) := by
  rcases htype with hty | hty <;>
    (simp only [createMetaMcpClient] at h
     repeat' split at h
     all_goals (try (cases h))
     all_goals (try (simp at ht))
     all_goals (try (subst ht))
     all_goals simp_all [truthyStr, transportBearsAuth, transportNoAuth, Option.elim])

/-- Witness for claim C5: the spec's own example scenario — SSE to
`http://localhost:3000/mcp` with token `tok123` and the rewrite flag on yields
a transport for `http://host.docker.internal:3000/mcp` carrying the bearer
header in both header maps. -/
theorem claim5_witness :
    (sseTokenParams.type = some "SSE" ∨ sseTokenParams.type = some "STREAMABLE_HTTP") ∧
    createMetaMcpClient (some "true") parseUrlColon sseTokenParams =
      Except.ok { client := some metamcpClient,
                  transport := some (Transport.sse
                    { href := "http://host.docker.internal:3000/mcp" }
                    (some (authHeader "tok123")) (some (authHeader "tok123"))) } ∧
    transportBearsAuth (Transport.sse { href := "http://host.docker.internal:3000/mcp" }
      (some (authHeader "tok123")) (some (authHeader "tok123"))) "tok123" :=
  ⟨Or.inl rfl, rfl,
    claim5_bearer_header_configuration (some "true") parseUrlColon sseTokenParams
      { client := some metamcpClient,
        transport := some (Transport.sse
          { href := "http://host.docker.internal:3000/mcp" }
          (some (authHeader "tok123")) (some (authHeader "tok123"))) }
      (Transport.sse { href := "http://host.docker.internal:3000/mcp" }
        (some (authHeader "tok123")) (some (authHeader "tok123")))
      (Or.inl rfl) rfl rfl⟩

/-- Claim C9: every pair the factory returns is all-or-nothing — the client is
present exactly when the transport is. -/
theorem claim9_all_or_nothing (envFlag : Option String)
    (parseUrl : String → Option ParsedUrl) (p : ServerParameters) (r : FactoryResult)
    (h : createMetaMcpClient envFlag parseUrl p = Except.ok r) :
    r.client.isSome = r.transport.isSome := by
  simp only [createMetaMcpClient] at h
  repeat' split at h
  all_goals cases h
  all_goals rfl

/-- Witness for claim C9 at the all-defaults STDIO configuration. -/
theorem claim9_witness :
    createMetaMcpClient none parseUrlColon stdioEmptyParams =
      Except.ok { client := some metamcpClient,
                  transport := some (Transport.stdio "" none none "ignore") } ∧
    (({ client := some metamcpClient,
        transport := some (Transport.stdio "" none none "ignore") } : FactoryResult).client.isSome =
      ({ client := some metamcpClient,
         transport := some (Transport.stdio "" none none "ignore") } : FactoryResult).transport.isSome) :=
  ⟨rfl, claim9_all_or_nothing none parseUrlColon stdioEmptyParams
      { client := some metamcpClient,
        transport := some (Transport.stdio "" none none "ignore") } rfl⟩

/-- Claim C1, counterexample.  The claim says that when all three handshake
attempts fail, both the client and the transport have been closed by the time
`connectMetaMcpClient` returns.  The code refutes this: the retry loop only
ever calls `client.close()` (never `transport.close()`), and after the third
failure `retry` is already false so no cleanup at all runs.  With every
attempt failing, the trace shows zero transport closes, two client closes
(after attempts 0 and 1 only), and nothing after attempt 2. -/
theorem claim1_counterexample :
    (connectMetaMcpClient oracleNever oracleNever).handle = none ∧
    (connectMetaMcpClient oracleNever oracleNever).events =
      [ConnEvent.attempt 0 false, ConnEvent.clientClose false, ConnEvent.sleep 2500,
       ConnEvent.attempt 1 false, ConnEvent.clientClose false, ConnEvent.sleep 2500,
       ConnEvent.attempt 2 false] ∧
    ((connectMetaMcpClient oracleNever oracleNever).events.countP isTransportCloseEvt) = 0 ∧
    ((connectMetaMcpClient oracleNever oracleNever).events.countP isClientCloseEvt) = 2 :=
  ⟨rfl, rfl, rfl, rfl⟩

/-- Claim C1, amended: when all three attempts fail, `connectMetaMcpClient`
returns no handle; the client was best-effort closed after each of the first
two failures (two client closes in total), but no cleanup runs after the third
failure and the transport is never closed by this function — the
subprocess/socket resource is not released on the abandonment path. -/
theorem claim1_abandonment_trace (co ct : Nat → Bool)
    (h0 : co 0 = false) (h1 : co 1 = false) (h2 : co 2 = false) :
    (connectMetaMcpClient co ct).handle = none ∧
    (connectMetaMcpClient co ct).events =
      failCycle ct 0 ++ failCycle ct 1 ++ [ConnEvent.attempt 2 false] ∧
    ((connectMetaMcpClient co ct).events.countP isTransportCloseEvt) = 0 ∧
    ((connectMetaMcpClient co ct).events.countP isClientCloseEvt) = 2 := by
  refine ⟨?_, ?_, ?_, ?_⟩ <;>
    simp [connectMetaMcpClient, connectGo, h0, h1, h2, failCycle,
      List.countP_cons, isTransportCloseEvt, isClientCloseEvt]

/-- Witness for the amended claim C1: all attempts fail and every intermediate
close itself throws; the outcome is the same trace shape. -/
theorem claim1_witness :
    oracleNever 0 = false ∧ oracleNever 1 = false ∧ oracleNever 2 = false ∧
    ((connectMetaMcpClient oracleNever oracleCloseThrows).handle = none ∧
     (connectMetaMcpClient oracleNever oracleCloseThrows).events =
       failCycle oracleCloseThrows 0 ++ failCycle oracleCloseThrows 1 ++
         [ConnEvent.attempt 2 false] ∧
     ((connectMetaMcpClient oracleNever oracleCloseThrows).events.countP isTransportCloseEvt) = 0 ∧
     ((connectMetaMcpClient oracleNever oracleCloseThrows).events.countP isClientCloseEvt) = 2) :=
  ⟨rfl, rfl, rfl, claim1_abandonment_trace oracleNever oracleCloseThrows rfl rfl rfl⟩

/-- Claim C6: if the first success is at attempt `k` (with `k < 3` attempts
indexed from 0), the establisher returns a valid handle immediately after that
attempt: the trace is exactly `k` blocks of (failed attempt, best-effort
client close, 2.5-second sleep) followed by the successful attempt, so there
are exactly `k` intermediate cleanups, `k` sleeps of 2500 ms — one before each
retry — and `k + 1` handshake attempts, with no attempt after the success.
For the claimed scenario take `k = 2`. -/
theorem claim6_retry_schedule (co ct : Nat → Bool) (k : Nat) (hk : k < 3)
    (hfail : ∀ j, j < k → co j = false) (hsucc : co k = true) :
    (connectMetaMcpClient co ct).handle = some { cleanup := handleCleanup } ∧
    (connectMetaMcpClient co ct).events =
      (List.range k).flatMap (failCycle ct) ++ [ConnEvent.attempt k true] ∧
    ((connectMetaMcpClient co ct).events.countP isClientCloseEvt) = k ∧
    ((connectMetaMcpClient co ct).events.countP isSleepEvt) = k ∧
    ((connectMetaMcpClient co ct).events.countP isAttemptEvt) = k + 1 := by
  interval_cases k
  · refine ⟨?_, ?_, ?_, ?_, ?_⟩ <;>
      simp [connectMetaMcpClient, connectGo, hsucc, failCycle, List.countP_cons,
        isClientCloseEvt, isSleepEvt, isAttemptEvt,
        show List.range 0 = [] from rfl]
  · have h0 := hfail 0 (by omega)
    refine ⟨?_, ?_, ?_, ?_, ?_⟩ <;>
      simp [connectMetaMcpClient, connectGo, hsucc, h0, failCycle, List.countP_cons,
        isClientCloseEvt, isSleepEvt, isAttemptEvt,
        show List.range 1 = [0] from rfl]
  · have h0 := hfail 0 (by omega)
    have h1 := hfail 1 (by omega)
    refine ⟨?_, ?_, ?_, ?_, ?_⟩ <;>
      simp [connectMetaMcpClient, connectGo, hsucc, h0, h1, failCycle, List.countP_cons,
        isClientCloseEvt, isSleepEvt, isAttemptEvt,
        show List.range 2 = [0, 1] from rfl]

/-- Witness for claim C6: two failures then success on the third attempt. -/
theorem claim6_witness :
    (2 : Nat) < 3 ∧ oracleThird 2 = true ∧
    ((connectMetaMcpClient oracleThird oracleNever).handle = some { cleanup := handleCleanup } ∧
     (connectMetaMcpClient oracleThird oracleNever).events =
       (List.range 2).flatMap (failCycle oracleNever) ++ [ConnEvent.attempt 2 true] ∧
     ((connectMetaMcpClient oracleThird oracleNever).events.countP isClientCloseEvt) = 2 ∧
     ((connectMetaMcpClient oracleThird oracleNever).events.countP isSleepEvt) = 2 ∧
     ((connectMetaMcpClient oracleThird oracleNever).events.countP isAttemptEvt) = 2 + 1) :=
  ⟨by decide, rfl,
    claim6_retry_schedule oracleThird oracleNever 2 (by decide)
      (by intro j hj; interval_cases j <;> rfl) rfl⟩

/-- Claim C7, counterexample.  The claim says a second `cleanup` invocation is
an idempotent no-op closing each resource exactly once.  The closure the
source returns has no guard: each invocation runs `transport.close()` then
`client.close()` again, so two invocations (with benign underlying closes,
hence no error) close each resource twice, not once. -/
theorem claim7_counterexample :
    (connectMetaMcpClient oracleAlways oracleNever).handle = some { cleanup := handleCleanup } ∧
    (handleCleanup false false).2 = false ∧
    (((handleCleanup false false).1 ++ (handleCleanup false false).1).countP isTransportCloseE) = 2 ∧
    (((handleCleanup false false).1 ++ (handleCleanup false false).1).countP isClientCloseE) = 2 :=
  ⟨rfl, rfl, rfl, rfl⟩

/-- Claim C7, amended: the cleanup action of every returned handle closes the
transport and then the client, in that order, and does not itself throw when
the underlying closes do not; but it is not idempotent — `n` invocations issue
`n` transport closes and `n` client closes, so a second call closes each
underlying resource again rather than being a no-op. -/
theorem claim7_cleanup_trace (co ct : Nat → Bool) (h : ConnectedClient) (n : Nat)
    (hh : (connectMetaMcpClient co ct).handle = some h) :
    (h.cleanup false false).1 = [CloseEvt.transport, CloseEvt.client] ∧
    (h.cleanup false false).2 = false ∧
    (((List.replicate n (h.cleanup false false).1).flatten).countP isTransportCloseE) = n ∧
    (((List.replicate n (h.cleanup false false).1).flatten).countP isClientCloseE) = n := by
  have hcl := connectGo_handle_shape co ct 3 0 [] h hh
  subst hcl
  refine ⟨rfl, rfl, ?_, ?_⟩
  · induction n with
    | zero => rfl
    | succ n ih =>
      simp [List.replicate_succ, List.countP_append, ih, handleCleanup,
        isTransportCloseE]
  · induction n with
    | zero => rfl
    | succ n ih =>
      simp [List.replicate_succ, List.countP_append, ih, handleCleanup,
        isClientCloseE]

/-- Witness for the amended claim C7 at two cleanup invocations of the handle
returned for an immediately-successful connection. -/
theorem claim7_witness :
    (connectMetaMcpClient oracleAlways oracleCloseThrows).handle =
      some { cleanup := handleCleanup } ∧
    ((({ cleanup := handleCleanup } : ConnectedClient).cleanup false false).1 =
      [CloseEvt.transport, CloseEvt.client] ∧
     (({ cleanup := handleCleanup } : ConnectedClient).cleanup false false).2 = false ∧
     (((List.replicate 2 (({ cleanup := handleCleanup } : ConnectedClient).cleanup false false).1).flatten).countP isTransportCloseE) = 2 ∧
     (((List.replicate 2 (({ cleanup := handleCleanup } : ConnectedClient).cleanup false false).1).flatten).countP isClientCloseE) = 2) :=
  ⟨rfl, claim7_cleanup_trace oracleAlways oracleCloseThrows
      { cleanup := handleCleanup } 2 rfl⟩

/-- Claim C8: errors thrown by the intermediate best-effort `client.close()`
are swallowed — for any handshake oracle, two runs whose intermediate closes
fail in arbitrarily different ways return the same handle and produce the same
event sequence (up to the recorded close-failure flag itself): the retry
schedule, the sleeps and the final outcome are unaffected, and the original
connection error is never replaced. -/
theorem claim8_close_errors_swallowed (co ct1 ct2 : Nat → Bool) :
    (connectMetaMcpClient co ct1).handle = (connectMetaMcpClient co ct2).handle ∧
    (connectMetaMcpClient co ct1).events.map eraseCloseFlag =
      (connectMetaMcpClient co ct2).events.map eraseCloseFlag := by
  cases hc0 : co 0 <;> cases hc1 : co 1 <;> cases hc2 : co 2 <;>
    simp [connectMetaMcpClient, connectGo, hc0, hc1, hc2, eraseCloseFlag]

end MetaMcp
